import Mathlib

/-!
Verification of the CRM GraphQL mutation layer (`crm/schema.py`).

The mutations (`CreateCustomer`, `BulkCreateCustomers`, `CreateProduct`,
`CreateOrder`) are embedded as pure functions over an explicit entity
store.  Raised exceptions become `Except` errors, distinguishing Django
`ValidationError`s from uncaught exception types.  Each mutation returns
the (possibly updated) store alongside its result, so statements about
side effects - rows inserted, state unchanged on failure - are explicit.

Modelling notes, checked against the source:
- Database ids are modelled as `Nat`.  GraphQL `ID` values in requests
  are likewise `Nat` (the Python code compares them after `str`
  conversion; the identification is injective so set differences and
  membership are preserved).
- Python `decimal.Decimal` values (product price, order total) are
  modelled exactly as mantissa/scale pairs, with exact addition and the
  decimal string rendering used by the `resolve_price` /
  `resolve_total_amount` serializers.
- The GraphQL `Float` price input reaches storage as
  `Decimal(str(input.price))`, i.e. the shortest decimal literal
  denoting the float; the embedding takes that decimal literal as the
  input directly.  The guard `input.price <= 0` on the float holds iff
  the denoted decimal is nonpositive.
- The possibility of an unexpected, non-`ValidationError` exception from
  a `Model.objects.create` call is modelled by an explicit `fault`
  argument carrying the exception message; `fault = none` is the normal
  run.  A create call that raises inserts no row.
- `transaction.atomic` blocks commit all-or-nothing: an exception inside
  the block leaves the store unchanged.
-/

deriving instance DecidableEq for Except

namespace Crm

/-- Exact decimal numbers as used via Python `decimal.Decimal` for price
and total fields: an integer mantissa with a decimal scale (number of
fractional digits); the denoted value is `mant / 10 ^ scale`. -/
structure Decimal where
  mant : Int
  scale : Nat
deriving Repr, DecidableEq

/-- Rescale the mantissa of `d` to scale `s` (used with `d.scale ≤ s`). -/
def Decimal.align (d : Decimal) (s : Nat) : Int :=
  d.mant * (10 : Int) ^ (s - d.scale)

/-- Decimal addition as in Python: both operands are aligned to the
larger scale and the mantissas added, so the sum is exact. -/
def Decimal.add (a b : Decimal) : Decimal :=
  ⟨a.align (max a.scale b.scale) + b.align (max a.scale b.scale), max a.scale b.scale⟩

/-- The integer `0` that the Python builtin `sum` starts from; adding an
integer to a `Decimal` is exact. -/
def Decimal.zero : Decimal := ⟨0, 0⟩

/-- Python `sum(product.price for product in products)` in `CreateOrder.mutate`:
a left fold of exact decimal addition starting from `0`. -/
def Decimal.sum (l : List Decimal) : Decimal :=
  l.foldl Decimal.add Decimal.zero

/-- Rendering of `str` on a Python `Decimal` with a nonpositive exponent: the mantissa
printed with `scale` fractional digits, zero-padded so the integer part
has at least one digit; `⟨1550, 2⟩` prints as `15.50`. -/
def Decimal.str (d : Decimal) : String :=
  let sign := if d.mant < 0 then ("-") else ("")
  let digits := toString d.mant.natAbs
  if d.scale = 0 then sign ++ digits
  else
    let padded :=
      if digits.length ≤ d.scale then
        String.mk (List.replicate (d.scale + 1 - digits.length) '0') ++ digits
      else digits
    sign ++ padded.take (padded.length - d.scale) ++ "." ++ padded.drop (padded.length - d.scale)

/-- The regex piece `1?\d{9,15}` consuming the whole remaining input:
either 9 to 15 digits, or a literal `1` followed by 9 to 15 digits (the
two alternatives regex backtracking explores).  `\d` is modelled as the
ASCII digits; on ASCII input this is exactly the set Python accepts,
while non-ASCII Unicode decimal digits - which the runtime regex tables
additionally accept - are outside the modelled domain (the C3 theorem
below is scoped to ASCII strings accordingly). -/
def matchDigits915 (l : List Char) : Bool :=
  (l.all Char.isDigit && decide (9 ≤ l.length) && decide (l.length ≤ 15)) ||
    (match l with
     | '1' :: t => t.all Char.isDigit && decide (9 ≤ t.length) && decide (t.length ≤ 15)
     | _ => false)

/-- Body of the regex alternative `\+?1?\d{9,15}` consuming the whole
remaining input: an optional `+`, then `1?\d{9,15}`. -/
def intlCore (l : List Char) : Bool :=
  matchDigits915 l ||
    (match l with
     | '+' :: t => matchDigits915 t
     | _ => false)

/-- Body of the regex alternative `\d{3}-\d{3}-\d{4}` consuming the
whole remaining input: exactly `NNN-NNN-NNNN`. -/
def dashedCore (l : List Char) : Bool :=
  match l with
  | [a, b, c, '-', d, e, f, '-', g, h, i, j] =>
    a.isDigit && b.isDigit && c.isDigit && d.isDigit && e.isDigit &&
      f.isDigit && g.isDigit && h.isDigit && i.isDigit && j.isDigit
  | _ => false

/-- Python `$` outside MULTILINE mode asserts the end of the input or
the position just before one final trailing newline.  `pyAnchored core
l` therefore holds when `core` consumes exactly `l`, or exactly `l`
without its final newline character. -/
def pyAnchored (core : List Char → Bool) (l : List Char) : Bool :=
  core l || (if l.getLast? = some '\n' then core l.dropLast else false)

/-- The regex alternative `^\+?1?\d{9,15}$` as `re.match` applies it. -/
def matchIntl (l : List Char) : Bool :=
  pyAnchored intlCore l

/-- The regex alternative `^\d{3}-\d{3}-\d{4}$` as `re.match` applies
it. -/
def matchDashed (l : List Char) : Bool :=
  pyAnchored dashedCore l

/-- Static method `CreateCustomer.validate_phone`: a missing or empty phone is valid
(`if not phone: return True`); otherwise the string must match
`^\+?1?\d{9,15}$|^\d{3}-\d{3}-\d{4}$`. -/
def CreateCustomer.validate_phone (phone : Option String) : Bool :=
  match phone with
  | none => true
  | some p => if p.isEmpty then true else matchIntl p.data || matchDashed p.data

/-- A `Customer` row. -/
structure Customer where
  id : Nat
  name : String
  email : String
  phone : Option String
deriving Repr, DecidableEq

/-- A `Product` row. -/
structure Product where
  id : Nat
  name : String
  price : Decimal
  stock : Int
deriving Repr, DecidableEq

/-- An `Order` row together with its many-to-many product associations
(`order.products`); `order_date` is an abstract timestamp. -/
structure Order where
  id : Nat
  customerId : Nat
  productIds : List Nat
  total_amount : Decimal
  order_date : Option Nat
deriving Repr, DecidableEq

/-- The entity store: the three tables plus the next autoincrement key
of each. -/
structure Store where
  customers : List Customer
  products : List Product
  orders : List Order
  nextCustomerId : Nat
  nextProductId : Nat
  nextOrderId : Nat
deriving Repr, DecidableEq

/-- Store well-formedness: primary keys are unique per table. -/
def Store.WF (s : Store) : Prop :=
  (s.customers.map Customer.id).Nodup ∧ (s.products.map Product.id).Nodup

/-- Serializer `ProductType.resolve_price`: `str(self.price)`. -/
def ProductType.resolve_price (p : Product) : String :=
  p.price.str

/-- Serializer `OrderType.resolve_total_amount`: `str(self.total_amount)`. -/
def OrderType.resolve_total_amount (o : Order) : String :=
  o.total_amount.str

/-- An error surfaced by a mutation: either a Django `ValidationError`
(raised deliberately or re-raised by a handler) or an uncaught exception
of some other type, carrying its message. -/
inductive Err where
  | validation : String → Err
  | other : String → Err
deriving Repr, DecidableEq

/-- Input record `CustomerInput`. -/
structure CustomerInput where
  name : String
  email : String
  phone : Option String
deriving Repr, DecidableEq

/-- Input record `ProductInput`: the price is the exact decimal literal denoted by the
GraphQL `Float` argument (see the modelling notes); `stock` defaults to
`0` at the GraphQL layer, so it is always present here. -/
structure ProductInput where
  name : String
  price : Decimal
  stock : Int
deriving Repr, DecidableEq

/-- Input record `OrderInput`. -/
structure OrderInput where
  customer_id : Nat
  product_ids : List Nat
  order_date : Option Nat
deriving Repr, DecidableEq

/-- Handler `CreateCustomer.mutate`.  Order of checks as in the source: phone
format (outside the `try`), duplicate email, then the insert.  A
`ValidationError` is re-raised with the same message; any other
exception from the insert (`fault`) is wrapped as
`ValidationError("Error creating customer: ...")`. -/
def CreateCustomer.mutate (fault : Option String) (s : Store) (input : CustomerInput) :
    Except Err (Customer × String) × Store :=
  if ¬ CreateCustomer.validate_phone input.phone then
    (.error (.validation ("Invalid phone number format")), s)
  else if s.customers.any (fun c => c.email == input.email) then
    (.error (.validation ("Email already exists")), s)
  else
    match fault with
    | some m => (.error (.validation ("Error creating customer: " ++ m)), s)
    | none =>
      let c : Customer := ⟨s.nextCustomerId, input.name, input.email, input.phone⟩
      (.ok (c, "Customer created successfully"),
        { s with customers := s.customers ++ [c], nextCustomerId := s.nextCustomerId + 1 })

/-- The loop body of `BulkCreateCustomers.mutate`, processing the input
records in order inside one `transaction.atomic` block.  Each record
carries its own optional `fault` (an unexpected exception raised by its
`Customer.objects.create` call).  An invalid phone appends an error and
skips the record; a raising create appends an error and skips the
record; both are caught inside the loop, so the batch continues and the
surrounding transaction commits the successful inserts.  No duplicate
email check is performed. -/
def BulkCreateCustomers.mutate (s : Store) :
    List (CustomerInput × Option String) → List Customer × List String × Store
  | [] => ([], [], s)
  | (input, fault) :: rest =>
    if ¬ CreateCustomer.validate_phone input.phone then
      let r := BulkCreateCustomers.mutate s rest
      (r.1, ("Invalid phone number for " ++ input.name) :: r.2.1, r.2.2)
    else
      match fault with
      | some m =>
        let r := BulkCreateCustomers.mutate s rest
        (r.1, ("Error creating customer " ++ input.name ++ ": " ++ m) :: r.2.1, r.2.2)
      | none =>
        let c : Customer := ⟨s.nextCustomerId, input.name, input.email, input.phone⟩
        let s1 : Store :=
          { s with customers := s.customers ++ [c], nextCustomerId := s.nextCustomerId + 1 }
        let r := BulkCreateCustomers.mutate s1 rest
        (c :: r.1, r.2.1, r.2.2)

/-- Handler `CreateProduct.mutate`.  Price and stock guards as in the source.
Only `ValidationError` is caught around the insert (and re-raised with
the same message); an unexpected exception from the insert (`fault`)
propagates uncaught as `Err.other`. -/
def CreateProduct.mutate (fault : Option String) (s : Store) (input : ProductInput) :
    Except Err Product × Store :=
  if input.price.mant ≤ 0 then
    (.error (.validation ("Price must be positive")), s)
  else if input.stock < 0 then
    (.error (.validation ("Stock cannot be negative")), s)
  else
    match fault with
    | some m => (.error (.other m), s)
    | none =>
      let p : Product := ⟨s.nextProductId, input.name, input.price, input.stock⟩
      (.ok p,
        { s with products := s.products ++ [p], nextProductId := s.nextProductId + 1 })

/-- Python `set(input.product_ids) - set(str(p.id) for p in products)`: the
requested ids with the found ids removed, as a duplicate-free list. -/
def missingProducts (requested : List Nat) (found : List Product) : List Nat :=
  requested.dedup.filter (fun i => decide (i ∉ found.map Product.id))

/-- The message of the products-not-found `ValidationError`. -/
def productsNotFoundMsg (requested : List Nat) (found : List Product) : String :=
  "Products not found: " ++ String.intercalate (", ") ((missingProducts requested found).map toString)

/-- Handler `CreateOrder.mutate`.  Steps as in the source: customer lookup
(`DoesNotExist` becomes `ValidationError("Customer not found")`), empty
product list guard, fetch of the products whose id is in
`input.product_ids` with a count comparison against the request list,
then one `transaction.atomic` block that inserts the order with a zero
placeholder total, associates the fetched products, and saves the
computed total - committed all-or-nothing, so a raising insert
(`fault`) leaves the store unchanged.  A `ValidationError` is re-raised
with the same message; any other exception is wrapped as
`ValidationError("Error creating order: ...")`. -/
def CreateOrder.mutate (fault : Option String) (s : Store) (input : OrderInput) :
    Except Err (Order × String) × Store :=
  match s.customers.find? (fun c => c.id == input.customer_id) with
  | none => (.error (.validation ("Customer not found")), s)
  | some customer =>
    if input.product_ids.isEmpty then
      (.error (.validation ("At least one product is required")), s)
    else
      let products := s.products.filter (fun p => decide (p.id ∈ input.product_ids))
      if products.length ≠ input.product_ids.length then
        (.error (.validation (productsNotFoundMsg input.product_ids products)), s)
      else
        match fault with
        | some m => (.error (.validation ("Error creating order: " ++ m)), s)
        | none =>
          let total := Decimal.sum (products.map Product.price)
          let order : Order :=
            ⟨s.nextOrderId, customer.id, products.map Product.id, total, input.order_date⟩
          (.ok (order, "Order created successfully"),
            { s with orders := s.orders ++ [order], nextOrderId := s.nextOrderId + 1 })

/-! ### Spec-side phone format definitions

For the refinement claim about `validate_phone`, the two accepted
formats are restated from the words of the specification - "optional `+`,
optional `1`, 9-15 digits" and "`NNN-NNN-NNNN`" - independently of the
matcher translated from the code. -/

/-- Spec reading of the international format: an optional `+`, then an
optional `1`, then 9 to 15 digits, and nothing else. -/
def specIntlFormat (s : List Char) : Prop :=
  ∃ d : List Char,
    (s = d ∨ s = '+' :: d ∨ s = '1' :: d ∨ s = '+' :: '1' :: d) ∧
      d.all Char.isDigit = true ∧ 9 ≤ d.length ∧ d.length ≤ 15

/-- Spec reading of the dashed format: three digits, a dash, three
digits, a dash, four digits, and nothing else. -/
def specDashedFormat (s : List Char) : Prop :=
  ∃ a b c : List Char,
    s = a ++ '-' :: (b ++ '-' :: c) ∧ a.length = 3 ∧ b.length = 3 ∧
      c.length = 4 ∧ (a ++ (b ++ c)).all Char.isDigit = true

theorem matchDigits915_iff (l : List Char) :
    matchDigits915 l = true ↔
      ∃ d : List Char, (l = d ∨ l = '1' :: d) ∧ d.all Char.isDigit = true ∧
        9 ≤ d.length ∧ d.length ≤ 15 := by
  unfold matchDigits915
  constructor
  · intro h
    rw [Bool.or_eq_true] at h
    rcases h with h1 | h2
    · simp only [Bool.and_eq_true, decide_eq_true_eq] at h1
      exact ⟨l, Or.inl rfl, h1.1.1, h1.1.2, h1.2⟩
    · split at h2
      · next t =>
        simp only [Bool.and_eq_true, decide_eq_true_eq] at h2
        exact ⟨t, Or.inr rfl, h2.1.1, h2.1.2, h2.2⟩
      · exact absurd h2 (by simp)
  · rintro ⟨d, hd | hd, hall, h9, h15⟩
    · subst hd
      rw [Bool.or_eq_true]
      left
      simp [hall, h9, h15]
    · subst hd
      rw [Bool.or_eq_true]
      right
      simp [hall, h9, h15]

theorem intlCore_iff (l : List Char) : intlCore l = true ↔ specIntlFormat l := by
  unfold intlCore specIntlFormat
  constructor
  · intro h
    rw [Bool.or_eq_true] at h
    rcases h with h1 | h2
    · rcases (matchDigits915_iff l).1 h1 with ⟨d, hd | hd, hP⟩
      · exact ⟨d, Or.inl hd, hP⟩
      · exact ⟨d, Or.inr (Or.inr (Or.inl hd)), hP⟩
    · split at h2
      · next t =>
        rcases (matchDigits915_iff t).1 h2 with ⟨d, hd | hd, hP⟩
        · exact ⟨d, Or.inr (Or.inl (by rw [hd])), hP⟩
        · exact ⟨d, Or.inr (Or.inr (Or.inr (by rw [hd]))), hP⟩
      · exact absurd h2 (by simp)
  · rintro ⟨d, hshape, hP⟩
    rw [Bool.or_eq_true]
    rcases hshape with hd | hd | hd | hd
    · exact Or.inl ((matchDigits915_iff l).2 ⟨d, Or.inl hd, hP⟩)
    · subst hd
      exact Or.inr ((matchDigits915_iff d).2 ⟨d, Or.inl rfl, hP⟩)
    · exact Or.inl ((matchDigits915_iff l).2 ⟨d, Or.inr hd, hP⟩)
    · subst hd
      exact Or.inr ((matchDigits915_iff ('1' :: d)).2 ⟨d, Or.inr rfl, hP⟩)

theorem dashedCore_iff (l : List Char) : dashedCore l = true ↔ specDashedFormat l := by
  unfold dashedCore specDashedFormat
  constructor
  · intro h
    split at h
    · next a b c d e f g hh i j =>
      simp only [Bool.and_eq_true] at h
      refine ⟨[a, b, c], [d, e, f], [g, hh, i, j], by simp, rfl, rfl, rfl, ?_⟩
      simp_all
    · exact absurd h (by simp)
  · rintro ⟨a, b, c, hshape, ha, hb, hc, hdig⟩
    rcases List.length_eq_three.1 ha with ⟨a1, a2, a3, rfl⟩
    rcases List.length_eq_three.1 hb with ⟨b1, b2, b3, rfl⟩
    rcases c with _ | ⟨c1, c'⟩
    · simp at hc
    rcases List.length_eq_three.1 (by simpa using hc) with ⟨c2, c3, c4, rfl⟩
    subst hshape
    simp_all

theorem pyAnchored_iff (core : List Char → Bool) (l : List Char) :
    pyAnchored core l = true ↔
      core l = true ∨ ∃ q, l = q ++ ['\n'] ∧ core q = true := by
  unfold pyAnchored
  rw [Bool.or_eq_true]
  constructor
  · rintro (h | h)
    · exact Or.inl h
    · split at h
      · next hlast =>
        exact Or.inr ⟨l.dropLast, (List.dropLast_append_getLast? '\n' hlast).symm, h⟩
      · exact absurd h (by simp)
  · rintro (h | ⟨q, rfl, hq⟩)
    · exact Or.inl h
    · right
      rw [if_pos (by simp)]
      simpa using hq

/-- C3 counterexample: the claim reads `validate_phone` as accepting
exactly the strict formats and rejecting every other non-empty string,
but the Python `$` anchor also matches just before one final trailing
newline, so the source accepts the 13-character string
`123-456-7890\n`, which is neither format. -/
theorem validate_phone_strict_refuted :
    CreateCustomer.validate_phone (some ("123-456-7890\n")) = true ∧
    ("123-456-7890\n" : String) ≠ "" ∧
    ¬ specIntlFormat ("123-456-7890\n" : String).data ∧
    ¬ specDashedFormat ("123-456-7890\n" : String).data := by
  refine ⟨by decide, by decide, ?_, ?_⟩
  · exact fun h => absurd ((intlCore_iff _).2 h) (by decide)
  · exact fun h => absurd ((dashedCore_iff _).2 h) (by decide)

/-- C3 (amended): `validate_phone` accepts a missing phone and the
empty string; a non-empty ASCII string is accepted exactly when it -
or, because the Python `$` anchor also matches just before one final
trailing newline, the string with that newline removed - matches the
international format (optional `+`, optional `1`, 9-15 digits) or the
dashed format `NNN-NNN-NNNN`, and is rejected otherwise.  The
statement is scoped to ASCII strings because Python `\d` additionally
accepts non-ASCII Unicode decimal digits according to the runtime
regex tables, which the embedding does not model.  The embedding is a
Lean function, reflecting that the Python static method reads no state
and performs no side effect. -/
theorem validate_phone_ascii_spec :
    CreateCustomer.validate_phone none = true ∧
    ∀ p : String, (∀ c ∈ p.data, c.toNat ≤ 127) →
      (CreateCustomer.validate_phone (some p) = true ↔
        (p = "" ∨ specIntlFormat p.data ∨ specDashedFormat p.data ∨
          ∃ q : List Char, p.data = q ++ ['\n'] ∧
            (specIntlFormat q ∨ specDashedFormat q))) := by
  refine ⟨rfl, fun p _ => ?_⟩
  show (if p.isEmpty = true then true else matchIntl p.data || matchDashed p.data) = true ↔ _
  by_cases hp : p.isEmpty
  · rw [if_pos hp]
    simp [(String.isEmpty_iff p).1 hp]
  · rw [if_neg hp]
    rw [Bool.or_eq_true]
    unfold matchIntl matchDashed
    rw [pyAnchored_iff, pyAnchored_iff]
    constructor
    · rintro ((h | ⟨q, hq, hcore⟩) | (h | ⟨q, hq, hcore⟩))
      · exact Or.inr (Or.inl ((intlCore_iff _).1 h))
      · exact Or.inr (Or.inr (Or.inr ⟨q, hq, Or.inl ((intlCore_iff q).1 hcore)⟩))
      · exact Or.inr (Or.inr (Or.inl ((dashedCore_iff _).1 h)))
      · exact Or.inr (Or.inr (Or.inr ⟨q, hq, Or.inr ((dashedCore_iff q).1 hcore)⟩))
    · rintro (h | h | h | ⟨q, hq, h | h⟩)
      · exact absurd ((String.isEmpty_iff p).2 h) hp
      · exact Or.inl (Or.inl ((intlCore_iff _).2 h))
      · exact Or.inr (Or.inl ((dashedCore_iff _).2 h))
      · exact Or.inl (Or.inr ⟨q, hq, (intlCore_iff q).2 h⟩)
      · exact Or.inr (Or.inr ⟨q, hq, (dashedCore_iff q).2 h⟩)

/-- Witness for C3 (amended): the ASCII string `123-456-7890\n`
satisfies the scope hypothesis, and the instantiated characterization
holds there - the program accepts it via the trailing-newline
disjunct. -/
theorem validate_phone_ascii_spec_witness :
    (∀ c ∈ ("123-456-7890\n" : String).data, c.toNat ≤ 127) ∧
    (CreateCustomer.validate_phone (some ("123-456-7890\n")) = true ↔
      (("123-456-7890\n" : String) = "" ∨
        specIntlFormat ("123-456-7890\n" : String).data ∨
        specDashedFormat ("123-456-7890\n" : String).data ∨
        ∃ q : List Char, ("123-456-7890\n" : String).data = q ++ ['\n'] ∧
          (specIntlFormat q ∨ specDashedFormat q))) :=
  ⟨by decide, validate_phone_ascii_spec.2 ("123-456-7890\n") (by decide)⟩

/-! ### BulkCreateCustomers -/

/-- The error string a bulk record contributes, if any: an invalid phone
yields the invalid-phone message, otherwise a raising create yields the
wrapped creation-error message, otherwise the record contributes no
error (it is created). -/
def bulkItemError (input : CustomerInput) (fault : Option String) : Option String :=
  if ¬ CreateCustomer.validate_phone input.phone then
    some ("Invalid phone number for " ++ input.name)
  else
    fault.map (fun m => "Error creating customer " ++ input.name ++ ": " ++ m)

/-- A bulk record that gets created: valid phone and no raising create. -/
def bulkItemOk (r : CustomerInput × Option String) : Bool :=
  CreateCustomer.validate_phone r.1.phone && r.2.isNone

/-- C9: every bulk record contributes to exactly one of the two result
lists, so created customers plus error strings always number exactly
the input records. -/
theorem bulk_partition (s : Store) (inputs : List (CustomerInput × Option String)) :
    (BulkCreateCustomers.mutate s inputs).1.length +
      (BulkCreateCustomers.mutate s inputs).2.1.length = inputs.length := by
  induction inputs generalizing s with
  | nil => rfl
  | cons r rest ih =>
    rcases r with ⟨input, fault⟩
    by_cases hv : CreateCustomer.validate_phone input.phone = true
    · cases fault with
      | some m =>
        have h := ih s
        simp [BulkCreateCustomers.mutate, hv]
        omega
      | none =>
        have h := ih (Store.mk
          (s.customers ++ [Customer.mk s.nextCustomerId input.name input.email input.phone])
          s.products s.orders (s.nextCustomerId + 1) s.nextProductId s.nextOrderId)
        simp [BulkCreateCustomers.mutate, hv]
        omega
    · have h := ih s
      simp [BulkCreateCustomers.mutate, hv]
      omega

/-- C4: in a bulk create, the error list is exactly the per-record error
strings (invalid phone, or a raising create, each identified by the
name of the record), every record with a valid phone and a non-raising
create is created with exactly its input data - no duplicate-email
check is applied - and the final store commits exactly the created
customers; in particular three inputs whose second has an invalid
phone yield two created customers and exactly the one error naming the
second input. -/
theorem bulk_per_record (s : Store) (inputs : List (CustomerInput × Option String)) :
    (BulkCreateCustomers.mutate s inputs).2.1 =
      inputs.filterMap (fun r => bulkItemError r.1 r.2) ∧
    (BulkCreateCustomers.mutate s inputs).1.map (fun c => (c.name, c.email, c.phone)) =
      (inputs.filter bulkItemOk).map (fun r => (r.1.name, r.1.email, r.1.phone)) ∧
    (BulkCreateCustomers.mutate s inputs).2.2.customers =
      s.customers ++ (BulkCreateCustomers.mutate s inputs).1 ∧
    (BulkCreateCustomers.mutate ⟨[], [], [], 0, 0, 0⟩
        [(⟨"A", "a@x.com", some ("123-456-7890")⟩, none),
         (⟨"B", "b@x.com", some ("12")⟩, none),
         (⟨"C", "a@x.com", none⟩, none)]).1.length = 2 ∧
    (BulkCreateCustomers.mutate ⟨[], [], [], 0, 0, 0⟩
        [(⟨"A", "a@x.com", some ("123-456-7890")⟩, none),
         (⟨"B", "b@x.com", some ("12")⟩, none),
         (⟨"C", "a@x.com", none⟩, none)]).2.1 =
      [("Invalid phone number for B")] := by
  refine ⟨?_, ?_, ?_, by decide, by decide⟩
  · induction inputs generalizing s with
    | nil => rfl
    | cons r rest ih =>
      rcases r with ⟨input, fault⟩
      by_cases hv : CreateCustomer.validate_phone input.phone = true
      · cases fault with
        | some m => simp [BulkCreateCustomers.mutate, bulkItemError, hv, ih]
        | none => simp [BulkCreateCustomers.mutate, bulkItemError, hv, ih]
      · simp [BulkCreateCustomers.mutate, bulkItemError, hv, ih]
  · induction inputs generalizing s with
    | nil => rfl
    | cons r rest ih =>
      rcases r with ⟨input, fault⟩
      by_cases hv : CreateCustomer.validate_phone input.phone = true
      · cases fault with
        | some m => simp [BulkCreateCustomers.mutate, bulkItemOk, hv, ih]
        | none => simp [BulkCreateCustomers.mutate, bulkItemOk, hv, ih]
      · simp [BulkCreateCustomers.mutate, bulkItemOk, hv, ih]
  · induction inputs generalizing s with
    | nil => simp [BulkCreateCustomers.mutate]
    | cons r rest ih =>
      rcases r with ⟨input, fault⟩
      by_cases hv : CreateCustomer.validate_phone input.phone = true
      · cases fault with
        | some m => simp [BulkCreateCustomers.mutate, hv, ih]
        | none => simp [BulkCreateCustomers.mutate, hv, ih]
      · simp [BulkCreateCustomers.mutate, hv, ih]

/-! ### CreateCustomer and CreateProduct -/

/-- C5: a normal `createCustomer` call fails with a validation error
when the phone format is invalid or some stored customer already has
the email of the input (whatever its other fields), and otherwise returns
the new customer with the success message, inserting exactly that one
row. -/
theorem CreateCustomer_contract (s : Store) (input : CustomerInput) :
    ((CreateCustomer.validate_phone input.phone = false ∨
        ∃ c ∈ s.customers, c.email = input.email) →
      ∃ m, CreateCustomer.mutate none s input = (.error (.validation m), s)) ∧
    (CreateCustomer.validate_phone input.phone = true →
      (∀ c ∈ s.customers, c.email ≠ input.email) →
      CreateCustomer.mutate none s input =
        (.ok (⟨s.nextCustomerId, input.name, input.email, input.phone⟩,
            "Customer created successfully"),
          Store.mk (s.customers ++ [⟨s.nextCustomerId, input.name, input.email, input.phone⟩])
            s.products s.orders (s.nextCustomerId + 1) s.nextProductId s.nextOrderId)) := by
  constructor
  · rintro (hph | ⟨c, hc, he⟩)
    · exact ⟨"Invalid phone number format", by simp [CreateCustomer.mutate, hph]⟩
    · by_cases hph2 : CreateCustomer.validate_phone input.phone = true
      · have hany : s.customers.any (fun c => c.email == input.email) = true :=
          List.any_eq_true.2 ⟨c, hc, by simp [he]⟩
        exact ⟨"Email already exists", by simp [CreateCustomer.mutate, hph2, hany]⟩
      · exact ⟨"Invalid phone number format", by simp [CreateCustomer.mutate, hph2]⟩
  · intro hph hne
    have hany : s.customers.any (fun c => c.email == input.email) = false := by
      rw [Bool.eq_false_iff]
      intro h
      rcases List.any_eq_true.1 h with ⟨c, hc, he⟩
      exact hne c hc (by simpa using he)
    simp [CreateCustomer.mutate, hph, hany]

/-- Witness for C5: with customer `A` holding email `a@x.com` stored, a
create for `B` with the same email fails and leaves the store as it
was; on an empty store the same input succeeds, inserting one row. -/
theorem CreateCustomer_contract_witness :
    (∃ m, CreateCustomer.mutate none ⟨[⟨0, "A", "a@x.com", none⟩], [], [], 1, 0, 0⟩
        ⟨"B", "a@x.com", none⟩ =
      (.error (.validation m), ⟨[⟨0, "A", "a@x.com", none⟩], [], [], 1, 0, 0⟩)) ∧
    CreateCustomer.mutate none ⟨[], [], [], 0, 0, 0⟩ ⟨"B", "a@x.com", none⟩ =
      (.ok (⟨0, "B", "a@x.com", none⟩, "Customer created successfully"),
        ⟨[⟨0, "B", "a@x.com", none⟩], [], [], 1, 0, 0⟩) :=
  ⟨(CreateCustomer_contract ⟨[⟨0, "A", "a@x.com", none⟩], [], [], 1, 0, 0⟩
      ⟨"B", "a@x.com", none⟩).1 (by decide),
   (CreateCustomer_contract ⟨[], [], [], 0, 0, 0⟩ ⟨"B", "a@x.com", none⟩).2 (by decide)
      (by decide)⟩

/-- C6: a `createProduct` call fails with a validation error when the
price is nonpositive (including exactly zero) or the stock negative,
and otherwise inserts and returns the product carrying the exact
decimal price taken from the input; the serialized price is the
decimal rendering of that stored price. -/
theorem CreateProduct_contract (s : Store) (input : ProductInput) :
    (input.price.mant ≤ 0 →
      CreateProduct.mutate none s input = (.error (.validation ("Price must be positive")), s)) ∧
    (0 < input.price.mant → input.stock < 0 →
      CreateProduct.mutate none s input = (.error (.validation ("Stock cannot be negative")), s)) ∧
    (0 < input.price.mant → 0 ≤ input.stock →
      CreateProduct.mutate none s input =
        (.ok ⟨s.nextProductId, input.name, input.price, input.stock⟩,
          Store.mk s.customers
            (s.products ++ [⟨s.nextProductId, input.name, input.price, input.stock⟩])
            s.orders s.nextCustomerId (s.nextProductId + 1) s.nextOrderId) ∧
      ProductType.resolve_price ⟨s.nextProductId, input.name, input.price, input.stock⟩ =
        input.price.str) := by
  refine ⟨fun hp => ?_, fun hp hs => ?_, fun hp hs => ⟨?_, rfl⟩⟩
  · simp [CreateProduct.mutate, hp]
  · simp [CreateProduct.mutate, not_le.2 hp, hs]
  · simp [CreateProduct.mutate, not_le.2 hp, not_lt.2 hs]

/-- Witness for C6: price `9.99` with stock `5` succeeds on an empty
store and the created product price serializes as `9.99`; price `0`
and negative stock each fail. -/
theorem CreateProduct_contract_witness :
    (CreateProduct.mutate none ⟨[], [], [], 0, 0, 0⟩ ⟨"W", ⟨999, 2⟩, 5⟩ =
        (.ok ⟨0, "W", ⟨999, 2⟩, 5⟩, ⟨[], [⟨0, "W", ⟨999, 2⟩, 5⟩], [], 0, 1, 0⟩) ∧
      ProductType.resolve_price ⟨0, "W", ⟨999, 2⟩, 5⟩ = Decimal.str ⟨999, 2⟩) ∧
    Decimal.str ⟨999, 2⟩ = "9.99" ∧
    CreateProduct.mutate none ⟨[], [], [], 0, 0, 0⟩ ⟨"W", ⟨0, 0⟩, 5⟩ =
      (.error (.validation ("Price must be positive")), ⟨[], [], [], 0, 0, 0⟩) ∧
    CreateProduct.mutate none ⟨[], [], [], 0, 0, 0⟩ ⟨"W", ⟨999, 2⟩, -1⟩ =
      (.error (.validation ("Stock cannot be negative")), ⟨[], [], [], 0, 0, 0⟩) :=
  ⟨(CreateProduct_contract ⟨[], [], [], 0, 0, 0⟩ ⟨"W", ⟨999, 2⟩, 5⟩).2.2 (by decide) (by decide),
   by decide,
   (CreateProduct_contract ⟨[], [], [], 0, 0, 0⟩ ⟨"W", ⟨0, 0⟩, 5⟩).1 (by decide),
   (CreateProduct_contract ⟨[], [], [], 0, 0, 0⟩ ⟨"W", ⟨999, 2⟩, -1⟩).2.1 (by decide) (by decide)⟩

/-! ### CreateOrder failure behaviour and fault handling -/

/-- Whether an error is a Django `ValidationError`, as opposed to an
uncaught exception of another type. -/
def Err.isValidation : Err → Bool
  | .validation _ => true
  | .other _ => false

/-- C7: a `createOrder` call with an empty product list always fails,
and every failing `createOrder` call - whatever the reason, and even
when the insert itself raises - returns the store unchanged, so no row
is written and repeating the failed call leaves the order count
untouched. -/
theorem CreateOrder_error_state (fault : Option String) (s : Store) (input : OrderInput) :
    (input.product_ids = [] →
      ∃ m, (CreateOrder.mutate fault s input).1 = .error (.validation m)) ∧
    ∀ e, (CreateOrder.mutate fault s input).1 = .error e →
      (CreateOrder.mutate fault s input).2 = s := by
  rcases hfind : s.customers.find? (fun c => c.id == input.customer_id) with _ | customer
  · refine ⟨fun _ => ⟨"Customer not found", ?_⟩, fun e _ => ?_⟩
    · simp [CreateOrder.mutate, hfind]
    · simp [CreateOrder.mutate, hfind]
  · by_cases hemp : input.product_ids.isEmpty = true
    · refine ⟨fun _ => ⟨"At least one product is required", ?_⟩, fun e _ => ?_⟩
      · simp [CreateOrder.mutate, hfind, hemp]
      · simp [CreateOrder.mutate, hfind, hemp]
    · refine ⟨fun h => absurd (by simp [h]) hemp, fun e herr => ?_⟩
      by_cases hcount :
        (s.products.filter (fun p => decide (p.id ∈ input.product_ids))).length =
          input.product_ids.length
      · cases fault with
        | some m => simp [CreateOrder.mutate, hfind, hemp, hcount]
        | none =>
          exfalso
          simp [CreateOrder.mutate, hfind, hemp, hcount] at herr
      · simp [CreateOrder.mutate, hfind, hemp, hcount]

/-- Witness for C7: on a store with one customer and no products, the
call with an empty product list fails and the resulting store is the
original one. -/
theorem CreateOrder_error_state_witness :
    (∃ m, (CreateOrder.mutate none ⟨[⟨1, "C", "c@x.com", none⟩], [], [], 2, 1, 1⟩
        ⟨1, [], none⟩).1 = .error (.validation m)) ∧
    (CreateOrder.mutate none ⟨[⟨1, "C", "c@x.com", none⟩], [], [], 2, 1, 1⟩
        ⟨1, [], none⟩).2 = ⟨[⟨1, "C", "c@x.com", none⟩], [], [], 2, 1, 1⟩ :=
  ⟨(CreateOrder_error_state none ⟨[⟨1, "C", "c@x.com", none⟩], [], [], 2, 1, 1⟩
      ⟨1, [], none⟩).1 rfl,
   (CreateOrder_error_state none ⟨[⟨1, "C", "c@x.com", none⟩], [], [], 2, 1, 1⟩
      ⟨1, [], none⟩).2 (.validation ("At least one product is required")) (by decide)⟩

/-- C8 counterexample: an unexpected store error inside
`CreateProduct.mutate` is NOT re-raised as a validation error - only
`ValidationError` is caught there, so the exception propagates with its
own type - refuting the claim that every non-bulk mutation wraps
unexpected store errors as validation errors. -/
theorem CreateProduct_fault_unwrapped :
    (CreateProduct.mutate (some ("boom")) ⟨[], [], [], 0, 0, 0⟩ ⟨"W", ⟨999, 2⟩, 5⟩).1 =
      .error (.other ("boom")) ∧
    Err.isValidation (Err.other ("boom")) = false := by decide

/-- C8 (amended): an unexpected store error is wrapped as a validation
error with a generic message in `createCustomer` and `createOrder`; in
`createProduct` only validation errors are re-raised and an unexpected
error propagates unwrapped with its own type; in `bulkCreateCustomers`
unexpected errors are accumulated per item without aborting the
batch. -/
theorem fault_wrapping (s : Store) (ic : CustomerInput) (ip : ProductInput)
    (io : OrderInput) (m : String) :
    (CreateCustomer.validate_phone ic.phone = true →
      (∀ c ∈ s.customers, c.email ≠ ic.email) →
      CreateCustomer.mutate (some m) s ic =
        (.error (.validation ("Error creating customer: " ++ m)), s)) ∧
    (0 < ip.price.mant → 0 ≤ ip.stock →
      CreateProduct.mutate (some m) s ip = (.error (.other m), s)) ∧
    ((s.customers.find? (fun c => c.id == io.customer_id)).isSome →
      io.product_ids ≠ [] →
      (s.products.filter (fun p => decide (p.id ∈ io.product_ids))).length =
        io.product_ids.length →
      CreateOrder.mutate (some m) s io =
        (.error (.validation ("Error creating order: " ++ m)), s)) ∧
    (CreateCustomer.validate_phone ic.phone = true →
      BulkCreateCustomers.mutate s [(ic, some m)] =
        ([], [("Error creating customer " ++ ic.name ++ ": " ++ m)], s)) := by
  refine ⟨fun hph hne => ?_, fun hp hs => ?_, fun hc hne hcount => ?_, fun hph => ?_⟩
  · have hany : s.customers.any (fun c => c.email == ic.email) = false := by
      rw [Bool.eq_false_iff]
      intro h
      rcases List.any_eq_true.1 h with ⟨c, hcm, he⟩
      exact hne c hcm (by simpa using he)
    simp [CreateCustomer.mutate, hph, hany]
  · simp [CreateProduct.mutate, not_le.2 hp, not_lt.2 hs]
  · rcases Option.isSome_iff_exists.1 hc with ⟨customer, hfind⟩
    simp [CreateOrder.mutate, hfind, List.isEmpty_iff, hne, hcount]
  · simp [BulkCreateCustomers.mutate, hph]

/-- Witness for C8 (amended): concrete runs of all four mutations with
a store fault carrying message `boom`, on a store with one customer
and one product. -/
theorem fault_wrapping_witness :
    (CreateCustomer.mutate (some ("boom")) ⟨[], [], [], 0, 0, 0⟩ ⟨"A", "a@x.com", none⟩ =
      (.error (.validation ("Error creating customer: boom")), ⟨[], [], [], 0, 0, 0⟩)) ∧
    (CreateProduct.mutate (some ("boom")) ⟨[], [], [], 0, 0, 0⟩ ⟨"W", ⟨999, 2⟩, 5⟩ =
      (.error (.other ("boom")), ⟨[], [], [], 0, 0, 0⟩)) ∧
    (CreateOrder.mutate (some ("boom"))
        ⟨[⟨1, "C", "c@x.com", none⟩], [⟨1, "P", ⟨1000, 2⟩, 3⟩], [], 2, 2, 1⟩ ⟨1, [1], none⟩ =
      (.error (.validation ("Error creating order: boom")),
        ⟨[⟨1, "C", "c@x.com", none⟩], [⟨1, "P", ⟨1000, 2⟩, 3⟩], [], 2, 2, 1⟩)) ∧
    (BulkCreateCustomers.mutate ⟨[], [], [], 0, 0, 0⟩ [(⟨"A", "a@x.com", none⟩, some ("boom"))] =
      ([], [("Error creating customer A: boom")], ⟨[], [], [], 0, 0, 0⟩)) :=
  ⟨(fault_wrapping ⟨[], [], [], 0, 0, 0⟩ ⟨"A", "a@x.com", none⟩ ⟨"W", ⟨999, 2⟩, 5⟩
      ⟨1, [1], none⟩ ("boom")).1 (by decide) (by decide),
   (fault_wrapping ⟨[], [], [], 0, 0, 0⟩ ⟨"A", "a@x.com", none⟩ ⟨"W", ⟨999, 2⟩, 5⟩
      ⟨1, [1], none⟩ ("boom")).2.1 (by decide) (by decide),
   (fault_wrapping ⟨[⟨1, "C", "c@x.com", none⟩], [⟨1, "P", ⟨1000, 2⟩, 3⟩], [], 2, 2, 1⟩
      ⟨"A", "a@x.com", none⟩ ⟨"W", ⟨999, 2⟩, 5⟩ ⟨1, [1], none⟩ ("boom")).2.2.1
      (by decide) (by decide) (by decide),
   (fault_wrapping ⟨[], [], [], 0, 0, 0⟩ ⟨"A", "a@x.com", none⟩ ⟨"W", ⟨999, 2⟩, 5⟩
      ⟨1, [1], none⟩ ("boom")).2.2.2 (by decide)⟩

/-! ### CreateOrder: fetched products versus requested ids -/

/-- The ids of the fetched products are distinct when the product keys
of the store are. -/
theorem fetched_ids_nodup (s : Store) (ids : List Nat)
    (hwf : (s.products.map Product.id).Nodup) :
    ((s.products.filter (fun p => decide (p.id ∈ ids))).map Product.id).Nodup :=
  hwf.sublist ((List.filter_sublist s.products).map Product.id)

/-- The id of each fetched product was requested. -/
theorem fetched_ids_subset (s : Store) (ids : List Nat) :
    (s.products.filter (fun p => decide (p.id ∈ ids))).map Product.id ⊆ ids := by
  intro x hx
  rcases List.mem_map.1 hx with ⟨p, hp, rfl⟩
  exact of_decide_eq_true (List.mem_filter.1 hp).2

/-- When as many products were fetched as ids were requested, every
requested id is among the fetched ids (given unique product keys). -/
theorem mem_fetched_of_count_eq (s : Store) (ids : List Nat)
    (hwf : (s.products.map Product.id).Nodup)
    (hlen : (s.products.filter (fun p => decide (p.id ∈ ids))).length = ids.length) :
    ∀ i ∈ ids, i ∈ (s.products.filter (fun p => decide (p.id ∈ ids))).map Product.id := by
  have hsp : List.Subperm ((s.products.filter (fun p => decide (p.id ∈ ids))).map Product.id) ids :=
    List.subperm_of_subset (fetched_ids_nodup s ids hwf) (fetched_ids_subset s ids)
  have hperm := hsp.perm_of_length_le (by simp [hlen])
  exact fun i hi => hperm.symm.subset hi

/-- With a duplicate requested id, strictly fewer products than ids are
fetched, even when every requested id exists in the store. -/
theorem fetched_lt_of_dup (s : Store) (ids : List Nat)
    (hwf : (s.products.map Product.id).Nodup) (hdup : ¬ ids.Nodup) :
    (s.products.filter (fun p => decide (p.id ∈ ids))).length < ids.length := by
  have hsp : List.Subperm ((s.products.filter (fun p => decide (p.id ∈ ids))).map Product.id)
      ids.dedup :=
    List.subperm_of_subset (fetched_ids_nodup s ids hwf)
      (fun x hx => List.mem_dedup.2 (fetched_ids_subset s ids hx))
  have h2 := hsp.length_le
  have h3 : ids.dedup.length < ids.length := by
    rcases Nat.lt_or_ge ids.dedup.length ids.length with h | h
    · exact h
    · exfalso
      have heq : ids.dedup.length = ids.length :=
        Nat.le_antisymm (List.dedup_sublist ids).length_le h
      exact hdup (List.dedup_eq_self.1 ((List.dedup_sublist ids).eq_of_length heq))
  simp only [List.length_map] at h2
  omega

/-- When every requested id has a product in the store, nothing is
missing: the set difference enumerated in the error message is empty. -/
theorem missing_nil_of_all_found (s : Store) (ids : List Nat)
    (hex : ∀ i ∈ ids, ∃ p ∈ s.products, p.id = i) :
    missingProducts ids (s.products.filter (fun p => decide (p.id ∈ ids))) = [] := by
  apply List.filter_eq_nil_iff.2
  intro i hi
  rcases hex i (List.mem_dedup.1 hi) with ⟨p, hp, hpid⟩
  have hmem : p ∈ s.products.filter (fun p => decide (p.id ∈ ids)) :=
    List.mem_filter.2 ⟨hp, decide_eq_true (hpid ▸ List.mem_dedup.1 hi)⟩
  simp only [decide_eq_true_eq, Decidable.not_not]
  exact List.mem_map.2 ⟨p, hmem, hpid⟩

/-- C1: a successful `createOrder` associates exactly the fetched
products with the order, every requested product id is among them, and
`total_amount` is the exact decimal sum of the prices of the
associated products as of creation; the serialized total is the decimal rendering
of that sum. -/
theorem CreateOrder_success_total (s : Store) (input : OrderInput) (o : Order) (msg : String)
    (s' : Store) (hwf : (s.products.map Product.id).Nodup)
    (hok : CreateOrder.mutate none s input = (.ok (o, msg), s')) :
    (∀ pid ∈ input.product_ids, pid ∈ o.productIds) ∧
    o.productIds =
      (s.products.filter (fun p => decide (p.id ∈ input.product_ids))).map Product.id ∧
    o.total_amount =
      Decimal.sum
        ((s.products.filter (fun p => decide (p.id ∈ input.product_ids))).map Product.price) ∧
    OrderType.resolve_total_amount o =
      (Decimal.sum
        ((s.products.filter (fun p => decide (p.id ∈ input.product_ids))).map Product.price)).str := by
  rcases hfind : s.customers.find? (fun c => c.id == input.customer_id) with _ | customer
  · simp [CreateOrder.mutate, hfind] at hok
  · by_cases hemp : input.product_ids.isEmpty = true
    · simp [CreateOrder.mutate, hfind, hemp] at hok
    · by_cases hcount :
        (s.products.filter (fun p => decide (p.id ∈ input.product_ids))).length =
          input.product_ids.length
      · simp [CreateOrder.mutate, hfind, hemp, hcount] at hok
        obtain ⟨⟨ho, hmsg⟩, hs'⟩ := hok
        subst ho
        exact ⟨fun pid hpid => mem_fetched_of_count_eq s input.product_ids hwf hcount pid hpid,
          rfl, rfl, rfl⟩
      · simp [CreateOrder.mutate, hfind, hemp, hcount] at hok

/-- Witness for C1: customer `1` and products `1` (price `10.00`) and
`2` (price `5.50`); the created order carries both products and its
total serializes as `15.50`. -/
theorem CreateOrder_success_total_witness :
    ((∀ pid ∈ [1, 2], pid ∈ (Order.mk 1 1 [1, 2] ⟨1550, 2⟩ none).productIds) ∧
      (Order.mk 1 1 [1, 2] ⟨1550, 2⟩ none).productIds =
        ((Store.mk [⟨1, "C", "c@x.com", none⟩]
            [⟨1, "P1", ⟨1000, 2⟩, 10⟩, ⟨2, "P2", ⟨550, 2⟩, 5⟩] [] 2 3 1).products.filter
          (fun p => decide (p.id ∈ (OrderInput.mk 1 [1, 2] none).product_ids))).map Product.id ∧
      (Order.mk 1 1 [1, 2] ⟨1550, 2⟩ none).total_amount =
        Decimal.sum (((Store.mk [⟨1, "C", "c@x.com", none⟩]
            [⟨1, "P1", ⟨1000, 2⟩, 10⟩, ⟨2, "P2", ⟨550, 2⟩, 5⟩] [] 2 3 1).products.filter
          (fun p => decide (p.id ∈ (OrderInput.mk 1 [1, 2] none).product_ids))).map Product.price) ∧
      OrderType.resolve_total_amount (Order.mk 1 1 [1, 2] ⟨1550, 2⟩ none) =
        (Decimal.sum (((Store.mk [⟨1, "C", "c@x.com", none⟩]
            [⟨1, "P1", ⟨1000, 2⟩, 10⟩, ⟨2, "P2", ⟨550, 2⟩, 5⟩] [] 2 3 1).products.filter
          (fun p => decide (p.id ∈ (OrderInput.mk 1 [1, 2] none).product_ids))).map
            Product.price)).str) ∧
    OrderType.resolve_total_amount (Order.mk 1 1 [1, 2] ⟨1550, 2⟩ none) = "15.50" :=
  ⟨CreateOrder_success_total
      (Store.mk [⟨1, "C", "c@x.com", none⟩]
        [⟨1, "P1", ⟨1000, 2⟩, 10⟩, ⟨2, "P2", ⟨550, 2⟩, 5⟩] [] 2 3 1)
      (OrderInput.mk 1 [1, 2] none) (Order.mk 1 1 [1, 2] ⟨1550, 2⟩ none)
      ("Order created successfully")
      (Store.mk [⟨1, "C", "c@x.com", none⟩]
        [⟨1, "P1", ⟨1000, 2⟩, 10⟩, ⟨2, "P2", ⟨550, 2⟩, 5⟩]
        [Order.mk 1 1 [1, 2] ⟨1550, 2⟩ none] 2 3 2)
      (by decide) (by decide),
   by decide⟩

/-- C2: when fewer (or more) products are fetched than ids were
requested, `createOrder` fails with the products-not-found validation
error whose enumeration is exactly the set difference of requested and
found ids, and the store is unchanged. -/
theorem CreateOrder_missing_products (s : Store) (input : OrderInput)
    (hc : (s.customers.find? (fun c => c.id == input.customer_id)).isSome)
    (hne : input.product_ids ≠ [])
    (hcount : (s.products.filter (fun p => decide (p.id ∈ input.product_ids))).length ≠
      input.product_ids.length) :
    CreateOrder.mutate none s input =
      (.error (.validation (productsNotFoundMsg input.product_ids
        (s.products.filter (fun p => decide (p.id ∈ input.product_ids))))), s) ∧
    ∀ i, (i ∈ missingProducts input.product_ids
        (s.products.filter (fun p => decide (p.id ∈ input.product_ids))) ↔
      i ∈ input.product_ids ∧
        i ∉ (s.products.filter (fun p => decide (p.id ∈ input.product_ids))).map Product.id) := by
  constructor
  · rcases Option.isSome_iff_exists.1 hc with ⟨customer, hfind⟩
    simp [CreateOrder.mutate, hfind, List.isEmpty_iff, hne, hcount]
  · intro i
    simp [missingProducts, List.mem_filter, List.mem_dedup]

/-- Witness for C2: requesting product ids `1` (existing) and `3`
(nonexistent) fails and the error names exactly `3`. -/
theorem CreateOrder_missing_products_witness :
    (CreateOrder.mutate none
        (Store.mk [⟨1, "C", "c@x.com", none⟩] [⟨1, "P1", ⟨1000, 2⟩, 10⟩] [] 2 2 1)
        (OrderInput.mk 1 [1, 3] none) =
      (.error (.validation (productsNotFoundMsg (OrderInput.mk 1 [1, 3] none).product_ids
        ((Store.mk [⟨1, "C", "c@x.com", none⟩] [⟨1, "P1", ⟨1000, 2⟩, 10⟩] [] 2 2 1).products.filter
          (fun p => decide (p.id ∈ (OrderInput.mk 1 [1, 3] none).product_ids))))),
        Store.mk [⟨1, "C", "c@x.com", none⟩] [⟨1, "P1", ⟨1000, 2⟩, 10⟩] [] 2 2 1)) ∧
    productsNotFoundMsg (OrderInput.mk 1 [1, 3] none).product_ids
        ((Store.mk [⟨1, "C", "c@x.com", none⟩] [⟨1, "P1", ⟨1000, 2⟩, 10⟩] [] 2 2 1).products.filter
          (fun p => decide (p.id ∈ (OrderInput.mk 1 [1, 3] none).product_ids))) =
      "Products not found: 3" ∧
    missingProducts (OrderInput.mk 1 [1, 3] none).product_ids
        ((Store.mk [⟨1, "C", "c@x.com", none⟩] [⟨1, "P1", ⟨1000, 2⟩, 10⟩] [] 2 2 1).products.filter
          (fun p => decide (p.id ∈ (OrderInput.mk 1 [1, 3] none).product_ids))) = [3] :=
  ⟨(CreateOrder_missing_products
      (Store.mk [⟨1, "C", "c@x.com", none⟩] [⟨1, "P1", ⟨1000, 2⟩, 10⟩] [] 2 2 1)
      (OrderInput.mk 1 [1, 3] none) (by decide) (by decide) (by decide)).1,
   by decide, by decide⟩

/-- C10: a `createOrder` request repeating an existing product id fails
- the count of distinct fetched rows cannot reach the length of the
duplicate-carrying request list - and the error enumeration of
missing ids is empty, leaving the bare message. -/
theorem CreateOrder_duplicate_ids (s : Store) (input : OrderInput)
    (hwf : (s.products.map Product.id).Nodup)
    (hc : (s.customers.find? (fun c => c.id == input.customer_id)).isSome)
    (hdup : ¬ input.product_ids.Nodup)
    (hex : ∀ i ∈ input.product_ids, ∃ p ∈ s.products, p.id = i) :
    CreateOrder.mutate none s input = (.error (.validation ("Products not found: ")), s) ∧
    missingProducts input.product_ids
      (s.products.filter (fun p => decide (p.id ∈ input.product_ids))) = [] := by
  have hmiss := missing_nil_of_all_found s input.product_ids hex
  have hcount : (s.products.filter (fun p => decide (p.id ∈ input.product_ids))).length ≠
      input.product_ids.length :=
    Nat.ne_of_lt (fetched_lt_of_dup s input.product_ids hwf hdup)
  have hne : input.product_ids ≠ [] := by
    intro h
    rw [h] at hdup
    exact hdup List.nodup_nil
  refine ⟨?_, hmiss⟩
  rcases Option.isSome_iff_exists.1 hc with ⟨customer, hfind⟩
  have hmsg : productsNotFoundMsg input.product_ids
      (s.products.filter (fun p => decide (p.id ∈ input.product_ids))) =
      "Products not found: " := by
    simp only [productsNotFoundMsg, hmiss, List.map_nil]
    decide
  simp [CreateOrder.mutate, hfind, List.isEmpty_iff, hne, hcount, hmsg]

/-- Witness for C10: requesting `[1, 1]` when product `1` exists fails
with the bare products-not-found message and an empty missing set. -/
theorem CreateOrder_duplicate_ids_witness :
    CreateOrder.mutate none
        (Store.mk [⟨1, "C", "c@x.com", none⟩] [⟨1, "P1", ⟨1000, 2⟩, 10⟩] [] 2 2 1)
        (OrderInput.mk 1 [1, 1] none) =
      (.error (.validation ("Products not found: ")),
        Store.mk [⟨1, "C", "c@x.com", none⟩] [⟨1, "P1", ⟨1000, 2⟩, 10⟩] [] 2 2 1) ∧
    missingProducts (OrderInput.mk 1 [1, 1] none).product_ids
        ((Store.mk [⟨1, "C", "c@x.com", none⟩] [⟨1, "P1", ⟨1000, 2⟩, 10⟩] [] 2 2 1).products.filter
          (fun p => decide (p.id ∈ (OrderInput.mk 1 [1, 1] none).product_ids))) = [] :=
  CreateOrder_duplicate_ids
    (Store.mk [⟨1, "C", "c@x.com", none⟩] [⟨1, "P1", ⟨1000, 2⟩, 10⟩] [] 2 2 1)
    (OrderInput.mk 1 [1, 1] none) (by decide) (by decide) (by decide) (by decide)

end Crm
